import Mathlib

/-!
# Verification of the AI-response normalization logic of dike-equity-ai

This file embeds, as executable Lean definitions over `List Char`, the
response-normalization logic found in the repository's request handlers:

* `normalizeV1` — the first `POST /api/analyze` handler in `src/server.js`
  (identical logic appears as `analyzeHandler` in `src/unnamed/part_003`):
  two code-fence regexes, `JSON.parse` on the capture, and a fixed
  six-dimension fallback record with `overallScore = 75`.
* `normalizeV2` — the second `POST /api/analyze` handler in `src/server.js`:
  a four-strategy extraction cascade, `JSON.parse`, truthiness validation of
  `overallScore`/`summary`, and a barriers-shaped fallback record with
  `overallScore = 70`.
* `clientParse` — the client-side parsing in `analyzeAssignment` of
  `src/unnamed/part_005`, which surfaces an error result instead of a
  fallback record when parsing or validation fails.

`JSON.parse` is modeled by `jsonParse`, a fuel-based structural
recursive-descent parser for the JSON grammar as accepted by JavaScript
(leading-zero rule, escape sequences, rejection of raw control characters
in strings, arbitrary leading/trailing JSON whitespace).  The three
JavaScript regular expressions are modeled by `jsonFenceCap`, `anyFenceCap`
and `braceCap`, reproducing the leftmost-match, lazy-quantifier and
greedy-quantifier semantics of the source patterns.
-/

/-- A JavaScript value produced by `JSON.parse`.  Numbers are kept exact as
`mantissa * 10 ^ exponent` pairs so that the zero / non-zero distinction used
by JavaScript truthiness is decidable. -/
inductive Json where
  | null : Json
  | bool : Bool → Json
  | num : Int → Int → Json
  | str : List Char → Json
  | arr : List Json → Json
  | obj : List (List Char × Json) → Json

/-! ### Character classes and basic scanning helpers -/

/-- JSON insignificant whitespace, exactly the four characters skipped by
`JSON.parse` between tokens. -/
def jsonWs (c : Char) : Bool :=
  c = ' ' || c = '\t' || c = '\n' || c = '\r'

/-- Whitespace removed by JavaScript `String.prototype.trim` (ASCII part). -/
def jsWsTrim (c : Char) : Bool :=
  c = ' ' || c = '\t' || c = '\n' || c = '\r' || c = '\x0b' || c = '\x0c'

/-- Drop leading JSON whitespace. -/
def dropWs : List Char → List Char
  | [] => []
  | c :: cs => if jsonWs c then dropWs cs else c :: cs

/-- JavaScript `String.prototype.trim` on a character list. -/
def jsTrim (s : List Char) : List Char :=
  ((s.dropWhile jsWsTrim).reverse.dropWhile jsWsTrim).reverse

def decDigit (c : Char) : Bool := 47 < c.toNat && c.toNat < 58

/-- Split off the maximal run of leading decimal digits. -/
def grabDigits (s : List Char) : List Char × List Char :=
  (s.takeWhile decDigit, s.dropWhile decDigit)

/-- Numeric value of a digit run, most significant digit first. -/
def digitsValFrom (acc : Nat) : List Char → Nat
  | [] => acc
  | d :: ds => digitsValFrom (acc * 10 + (d.toNat - 48)) ds

def digitsVal (ds : List Char) : Nat := digitsValFrom 0 ds

/-- Value of one hexadecimal digit, in any letter case. -/
def hexDigitVal (c : Char) : Option Nat :=
  let n := c.toNat
  if 47 < n ∧ n < 58 then some (n - 48)
  else if 96 < n ∧ n < 103 then some (n - 87)
  else if 64 < n ∧ n < 71 then some (n - 55)
  else none

/-! ### `JSON.parse` model -/

/-- One-character JSON string escapes (`\uXXXX` handled separately). -/
def jsonEscape : Char → Option Char
  | '"' => some '"'
  | '\\' => some '\\'
  | '/' => some '/'
  | 'b' => some (Char.ofNat 8)
  | 'f' => some (Char.ofNat 12)
  | 'n' => some '\n'
  | 'r' => some '\r'
  | 't' => some '\t'
  | _ => none

/-- Body of a JSON string literal, after the opening quote.  Mirrors
`JSON.parse`: raw control characters below `U+0020` are rejected, escape
sequences are decoded, and the result is returned with the remaining input. -/
def jsonStrBody (acc : List Char) : List Char → Option (List Char × List Char)
  | '"' :: rest => some (acc.reverse, rest)
  | '\\' :: 'u' :: h1 :: h2 :: h3 :: h4 :: rest =>
    match hexDigitVal h1, hexDigitVal h2, hexDigitVal h3, hexDigitVal h4 with
    | some a, some b, some c, some d =>
      jsonStrBody (Char.ofNat (((a * 16 + b) * 16 + c) * 16 + d) :: acc) rest
    | _, _, _, _ => none
  | '\\' :: e :: rest =>
    match jsonEscape e with
    | some ch => jsonStrBody (ch :: acc) rest
    | none => none
  | c :: rest =>
    if c.toNat < 32 then none else jsonStrBody (c :: acc) rest
  | [] => none

/-- Leading integer digits of a JSON number: a lone `0`, or a run starting
with a non-zero digit.  Anything else is not a number token. -/
def intDigits : List Char → Option (List Char × List Char)
  | '0' :: r => some (['0'], r)
  | s =>
    match grabDigits s with
    | ([], _) => none
    | (ds, r) => some (ds, r)

/-- Optional fraction: a dot followed by at least one digit; a dot with no
digit after it is left unconsumed (so that the enclosing context fails, as
`JSON.parse` does). -/
def fracDigits : List Char → List Char × List Char
  | '.' :: r =>
    (match grabDigits r with
     | ([], _) => ([], '.' :: r)
     | (ds, r2) => (ds, r2))
  | s => ([], s)

/-- Digits of an exponent after its optional sign; on an empty digit run the
whole exponent marker is left unconsumed (`orig`). -/
def expDigits (sg : Int) (orig q : List Char) : Int × List Char :=
  match grabDigits q with
  | ([], _) => (0, orig)
  | (ds, r) => (sg * (digitsVal ds : Int), r)

/-- Optional exponent of a JSON number. -/
def expPart : List Char → Int × List Char
  | s =>
    match s with
    | 'e' :: '+' :: q => expDigits 1 s q
    | 'e' :: '-' :: q => expDigits (-1) s q
    | 'e' :: q => expDigits 1 s q
    | 'E' :: '+' :: q => expDigits 1 s q
    | 'E' :: '-' :: q => expDigits (-1) s q
    | 'E' :: q => expDigits 1 s q
    | _ => (0, s)

/-- A JSON number after the optional minus sign. -/
def jsonNumCore (neg : Bool) (s : List Char) : Option (Json × List Char) :=
  match intDigits s with
  | none => none
  | some (ip, r1) =>
    let fr := fracDigits r1
    let ex := expPart fr.2
    let mag : Int := (digitsVal (ip ++ fr.1) : Int)
    some (Json.num (if neg then -mag else mag) (ex.1 - (fr.1.length : Int)), ex.2)

/-- A JSON number token, following the JavaScript grammar: optional minus,
an integer part that is `0` or starts with a non-zero digit, an optional
fraction and an optional exponent. -/
def jsonNumTok : List Char → Option (Json × List Char)
  | '-' :: r => jsonNumCore true r
  | s => jsonNumCore false s

/-- Parser modes: a value, the tail of an array, or the tail of an object.
Arrays and objects carry the members parsed so far. -/
inductive PMode where
  | val : PMode
  | inArr : List Json → PMode
  | inObj : List (List Char × Json) → PMode

/-- The recursive core of the `JSON.parse` model, structural on `fuel` so that
it reduces definitionally.  `.inArr` expects input positioned at an element;
`.inObj` expects input positioned at a member key. -/
def jsonRun : Nat → PMode → List Char → Option (Json × List Char)
  | 0, _, _ => none
  | fuel + 1, PMode.val, s =>
    match dropWs s with
    | '{' :: r =>
      (match dropWs r with
       | '}' :: r2 => some (Json.obj [], r2)
       | r2 => jsonRun fuel (PMode.inObj []) r2)
    | '[' :: r =>
      (match dropWs r with
       | ']' :: r2 => some (Json.arr [], r2)
       | r2 => jsonRun fuel (PMode.inArr []) r2)
    | '"' :: r =>
      (match jsonStrBody [] r with
       | some (cs, rest) => some (Json.str cs, rest)
       | none => none)
    | 't' :: 'r' :: 'u' :: 'e' :: r => some (Json.bool true, r)
    | 'f' :: 'a' :: 'l' :: 's' :: 'e' :: r => some (Json.bool false, r)
    | 'n' :: 'u' :: 'l' :: 'l' :: r => some (Json.null, r)
    | s2 => jsonNumTok s2
  | fuel + 1, PMode.inArr acc, s =>
    match jsonRun fuel PMode.val s with
    | some (v, r) =>
      (match dropWs r with
       | ',' :: r2 => jsonRun fuel (PMode.inArr (acc ++ [v])) r2
       | ']' :: r2 => some (Json.arr (acc ++ [v]), r2)
       | _ => none)
    | none => none
  | fuel + 1, PMode.inObj acc, s =>
    match s with
    | '"' :: r =>
      (match jsonStrBody [] r with
       | some (k, r1) =>
         (match dropWs r1 with
          | ':' :: r2 =>
            (match jsonRun fuel PMode.val r2 with
             | some (v, r3) =>
               (match dropWs r3 with
                | ',' :: r4 => jsonRun fuel (PMode.inObj (acc ++ [(k, v)])) (dropWs r4)
                | '}' :: r4 => some (Json.obj (acc ++ [(k, v)]), r4)
                | _ => none)
             | none => none)
          | _ => none)
       | none => none)
    | _ => none

/-- The model of `JSON.parse`: parse one value and require that only JSON
whitespace remains. -/
def jsonParse (s : List Char) : Option Json :=
  match jsonRun (2 * s.length + 2) PMode.val s with
  | some (v, rest) => if dropWs rest = [] then some v else none
  | none => none

/-! ### JavaScript property access and truthiness -/

/-- Last binding of a key in an object member list (later duplicate keys from
`JSON.parse` override earlier ones). -/
def lookupLast (k : List Char) : List (List Char × Json) → Option Json
  | [] => none
  | kv :: rest =>
    match lookupLast k rest with
    | some v => some v
    | none => if kv.1 = k then some kv.2 else none

/-- Property read `j[k]`: only objects expose the analysis fields; `none`
plays the role of `undefined`. -/
def jsGet (j : Json) (k : List Char) : Option Json :=
  match j with
  | Json.obj kvs => lookupLast k kvs
  | _ => none

/-- JavaScript truthiness of a possibly-undefined value: `undefined`, `null`,
`false`, `0` and the empty string are falsy; arrays and objects are truthy. -/
def jsTruthy : Option Json → Bool
  | none => false
  | some Json.null => false
  | some (Json.bool b) => b
  | some (Json.num m _) => decide (m ≠ 0)
  | some (Json.str s) => decide (s ≠ [])
  | some (Json.arr _) => true
  | some (Json.obj _) => true

/-! ### Regular-expression models

The handlers use three patterns (JavaScript `String.prototype.match`, first
match, leftmost):

* strategy 1: a fenced block tagged `json`;
* strategy 2: any fenced block;
* strategy 3: a greedy brace span containing the quoted key `overallScore`.

Each is modeled by trying a matcher at every start position from the left
(`scan`), exactly as a backtracking engine does. -/

/-- Boolean list-prefix test. -/
def isPre : List Char → List Char → Bool
  | p :: ps, c :: cs => if p = c then isPre ps cs else false
  | _ :: _, [] => false
  | [], _ => true

/-- Opening marker of strategy 1. -/
def fenceJson : List Char := "```json".data

/-- Opening / closing marker of strategies 1 and 2. -/
def fence3 : List Char := "```".data

/-- A newline immediately followed by a closing marker. -/
def nlFence3 : List Char := "\n```".data

/-- The quoted key searched for by strategy 3. -/
def quotedKey : List Char := "\"overallScore\"".data

/-- Try a matcher at every suffix, leftmost success first. -/
def scan (tryAt : List Char → Option α) : List Char → Option α
  | [] => tryAt []
  | c :: rest =>
    match tryAt (c :: rest) with
    | some r => some r
    | none => scan tryAt rest

/-- Close a fenced block: the lazy `([\s\S]*?)` grows until `\n?```` can
match, preferring (greedily) to let `\n?` consume a newline directly before
the closing marker.  Returns the capture and the exact characters consumed
(capture, optional newline and closing marker). -/
def fenceClose : List Char → Option (List Char × List Char)
  | [] => none
  | c :: rest =>
    if isPre nlFence3 (c :: rest) then some ([], nlFence3)
    else if isPre fence3 (c :: rest) then some ([], fence3)
    else
      match fenceClose rest with
      | some (cap, tl) => some (c :: cap, c :: tl)
      | none => none

/-- Try `opener\n?([\s\S]*?)\n?```` at the current position.  The leading
`\n?` is greedy: it first consumes a newline if present, falling back to not
consuming it.  Returns (capture group 1, whole match group 0). -/
def tryFenceAt (opener : List Char) (t : List Char) : Option (List Char × List Char) :=
  if isPre opener t then
    match t.drop opener.length with
    | '\n' :: r2 =>
      (match fenceClose r2 with
       | some (cap, tl) => some (cap, opener ++ '\n' :: cap ++ tl.drop cap.length)
       | none =>
         match fenceClose ('\n' :: r2) with
         | some (cap, tl) => some (cap, opener ++ cap ++ tl.drop cap.length)
         | none => none)
    | r =>
      (match fenceClose r with
       | some (cap, tl) => some (cap, opener ++ cap ++ tl.drop cap.length)
       | none => none)
  else none

/-- First occurrence split: `s = before ++ pat ++ after`. -/
def splitAtSub (pat : List Char) : List Char → Option (List Char × List Char)
  | [] =>
    (match pat with
     | [] => some ([], [])
     | _ :: _ => none)
  | c :: rest =>
    match isPre pat (c :: rest) with
    | true => some ([], List.drop pat.length (c :: rest))
    | false =>
      (match splitAtSub pat rest with
       | some pr => some (c :: pr.1, pr.2)
       | none => none)

/-- Prefix of the input ending at its last `}`, if any. -/
def takeToLastBrace : List Char → Option (List Char)
  | [] => none
  | c :: rest =>
    match takeToLastBrace rest with
    | some r => some (c :: r)
    | none => if c = '}' then some [c] else none

/-- Try `\{[\s\S]*"overallScore"[\s\S]*\}` at the current position.  The two
greedy stars make the whole match run from this `{` through the last `}`
that still lies after an occurrence of the quoted key; taking the first key
occurrence and then the last closing brace yields exactly that span. -/
def tryBraceAt (t : List Char) : Option (List Char) :=
  match t with
  | '{' :: u =>
    (match splitAtSub quotedKey u with
     | some (bef, aft) =>
       (match takeToLastBrace aft with
        | some upto => some ('{' :: (bef ++ quotedKey ++ upto))
        | none => none)
     | none => none)
  | _ => none

/-- Strategy 1: `rawText.match` of the json-tagged fence pattern, returning
(group 1, group 0). -/
def jsonFenceCap (s : List Char) : Option (List Char × List Char) :=
  scan (tryFenceAt fenceJson) s

/-- Strategy 2: `rawText.match` of the untagged fence pattern, returning
(group 1, group 0). -/
def anyFenceCap (s : List Char) : Option (List Char × List Char) :=
  scan (tryFenceAt fence3) s

/-- Strategy 3: `rawText.match` of the brace-span pattern (group 0 only; the
pattern has no capture group). -/
def braceCap (s : List Char) : Option (List Char) :=
  scan tryBraceAt s

/-! ### The first handler variant (`src/server.js` lines 106-147, and
`analyzeHandler` in `src/unnamed/part_003`) -/

/-- Keys of the analysis record, as character lists. -/
def kOverallScore : List Char := "overallScore".data

def kSummary : List Char := "summary".data

def kDimensions : List Char := "dimensions".data

def kBarriers : List Char := "barriers".data

def kStrengths : List Char := "strengths".data

def kRecommendations : List Char := "recommendations".data

def kReformatted : List Char := "reformattedAssignment".data

def kName : List Char := "name".data

def kScore : List Char := "score".data

def kIssues : List Char := "issues".data

/-- One fixed fallback dimension entry of the first variant. -/
def dimEntry (nm rec : List Char) : Json :=
  Json.obj [(kName, Json.str nm), (kScore, Json.num 75 0),
    (kIssues, Json.arr [Json.str ("Review required".data)]),
    (kRecommendations, Json.arr [Json.str rec])]

/-- The six fixed fallback dimensions of the first variant, in source order. -/
def fallbackDims : Json :=
  Json.arr [
    dimEntry ("Socioeconomic".data) ("Consider student resources".data),
    dimEntry ("Time & Scheduling".data) ("Consider flexibility".data),
    dimEntry ("Cultural & Linguistic".data) ("Consider inclusivity".data),
    dimEntry ("Accessibility".data) ("Consider accommodations".data),
    dimEntry ("Digital Divide".data) ("Consider access".data),
    dimEntry ("Learning Support".data) ("Consider guidance".data)]

/-- The fallback record of the first variant: `overallScore` 75, summary from
the first 200 characters of the raw response plus `"..."`, and the six fixed
dimensions. -/
def fallback75 (aiResponse : List Char) : Json :=
  Json.obj [(kOverallScore, Json.num 75 0),
    (kSummary, Json.str (aiResponse.take 200 ++ ("...".data))),
    (kDimensions, fallbackDims)]

/-- `jsonMatch` of the first variant:
`aiResponse.match(jsonFence) || aiResponse.match(anyFence)`, keeping only the
capture group which is what this variant parses. -/
def capV1 (aiResponse : List Char) : Option (List Char) :=
  match jsonFenceCap aiResponse with
  | some (cap, _) => some cap
  | none =>
    match anyFenceCap aiResponse with
    | some (cap, _) => some cap
    | none => none

/-- The first `POST /api/analyze` handler's normalization: if either fence
pattern matches, `JSON.parse` its capture and return the parsed value as-is
(no field validation); on a parse error, or when no fence matches, return the
six-dimension fallback record. -/
def normalizeV1 (aiResponse : List Char) : Json :=
  match capV1 aiResponse with
  | some cap =>
    (match jsonParse cap with
     | some a => a
     | none => fallback75 aiResponse)
  | none => fallback75 aiResponse

/-! ### The second handler variant (`src/server.js` second occurrence,
`POST /api/analyze`, extraction at lines 416-478) -/

/-- The candidate JSON text of the second variant: strategies 1-3 in order,
then `jsonText = jsonMatch[1] || jsonMatch[0]` (an empty capture group is
falsy, so the whole match is used instead; strategy 3 has no capture group),
and otherwise strategy 4, the trimmed response. -/
def candidateV2 (aiResponse : List Char) : List Char :=
  match jsonFenceCap aiResponse with
  | some (cap, g0) => if cap = [] then g0 else cap
  | none =>
    match anyFenceCap aiResponse with
    | some (cap, g0) => if cap = [] then g0 else cap
    | none =>
      match braceCap aiResponse with
      | some g0 => g0
      | none => jsTrim aiResponse

/-- The `try` block of the second variant: parse the candidate, then throw
unless `analysisData.overallScore` and `analysisData.summary` are both
truthy. -/
def tryBlockV2 (aiResponse : List Char) : Except Unit Json :=
  match jsonParse (candidateV2 aiResponse) with
  | none => Except.error ()
  | some a =>
    if jsTruthy (jsGet a kOverallScore) && jsTruthy (jsGet a kSummary) then Except.ok a
    else Except.error ()

/-- The fallback record of the second variant: `overallScore` 70, a fixed
summary, one `General Review` barrier, fixed strengths and recommendations,
and `reformattedAssignment` from the first 500 characters of the response. -/
def fallback70 (aiResponse : List Char) : Json :=
  Json.obj [(kOverallScore, Json.num 70 0),
    (kSummary, Json.str ("Analysis completed. Review the recommendations below.".data)),
    (kBarriers, Json.arr [Json.obj [
      (("category".data), Json.str ("General Review".data)),
      (("severity".data), Json.str ("Medium".data)),
      (("issue".data), Json.str ("Automated analysis encountered formatting issue".data)),
      (("impact".data), Json.str ("Manual review recommended".data)),
      (("suggestions".data), Json.arr [
        Json.str ("Review assignment for time flexibility".data),
        Json.str ("Consider resource requirements".data),
        Json.str ("Check accessibility needs".data)]),
      (("researchBasis".data), Json.str ("Universal Design for Learning principles".data))]]),
    (kStrengths, Json.arr [Json.str ("Assignment submitted for equity review".data)]),
    (kRecommendations, Json.arr [
      Json.str ("Provide multiple means of representation".data),
      Json.str ("Offer flexible deadlines".data),
      Json.str ("Include free alternatives for required materials".data)]),
    (kReformatted, Json.str (aiResponse.take 500 ++ ("...".data)))]

/-- The second `POST /api/analyze` handler's normalization: the `try` block's
value on success, its barriers-shaped fallback on any parse or validation
failure. -/
def normalizeV2 (aiResponse : List Char) : Json :=
  match tryBlockV2 aiResponse with
  | Except.ok a => a
  | Except.error _ => fallback70 aiResponse

/-! ### The client-side reimplementation (`analyzeAssignment`,
`src/unnamed/part_005` lines 335-372) -/

/-- The client's candidate text: `jsonText` starts as the whole content and
strategies 1-3 reassign it (capture group for the fenced strategies, whole
match for the brace strategy). -/
def candidateClient (content : List Char) : List Char :=
  match jsonFenceCap content with
  | some (cap, _) => cap
  | none =>
    match anyFenceCap content with
    | some (cap, _) => cap
    | none =>
      match braceCap content with
      | some g0 => g0
      | none => content

/-- The client-side parse: `JSON.parse(jsonText.trim())` followed by the same
truthiness validation; a failure is surfaced as an error result (the caller
sets an error message and returns no record — there is no fallback record on
this path). -/
def clientParse (content : List Char) : Except Unit Json :=
  match jsonParse (jsTrim (candidateClient content)) with
  | none => Except.error ()
  | some a =>
    if jsTruthy (jsGet a kOverallScore) && jsTruthy (jsGet a kSummary) then Except.ok a
    else Except.error ()

/-! ### General lemmas about the embedded code -/

theorem jsonParse_nil : jsonParse [] = none := rfl

theorem jsonParse_ne_nil {c : List Char} {a : Json} (h : jsonParse c = some a) : c ≠ [] := by
  intro he
  rw [he, jsonParse_nil] at h
  exact Option.noConfusion h

/-- Any input starting with the letter `j` is rejected by `JSON.parse`. -/
theorem jsonParse_j_head (rest : List Char) : jsonParse ('j' :: rest) = none := rfl

/-- Unfold a successful `try` block of the second variant into its three
ingredients: the candidate parses, and both required fields are truthy. -/
theorem tryBlockV2_ok {s : List Char} {a : Json} (h : tryBlockV2 s = Except.ok a) :
    jsonParse (candidateV2 s) = some a ∧
    jsTruthy (jsGet a kOverallScore) = true ∧ jsTruthy (jsGet a kSummary) = true := by
  unfold tryBlockV2 at h
  cases hp : jsonParse (candidateV2 s) with
  | none => rw [hp] at h; exact Except.noConfusion h
  | some b =>
    rw [hp] at h
    dsimp only at h
    by_cases hc : (jsTruthy (jsGet b kOverallScore) && jsTruthy (jsGet b kSummary)) = true
    · rw [if_pos hc] at h
      injection h with hba
      subst hba
      rw [Bool.and_eq_true] at hc
      exact ⟨rfl, hc.1, hc.2⟩
    · rw [if_neg hc] at h
      exact Except.noConfusion h

theorem normalizeV2_ok {s : List Char} {a : Json} (h : tryBlockV2 s = Except.ok a) :
    normalizeV2 s = a := by
  simp [normalizeV2, h]

theorem fallback70_overall (s : List Char) :
    jsGet (fallback70 s) kOverallScore = some (Json.num 70 0) := rfl

/-! ### Claim C1 -/

/-- C1 counterexample: for the plain-prose input `hello`, extraction falls
through to the trimmed-input strategy and parsing fails, yet the second
handler variant returns a record with `overallScore = 70` and no
`dimensions` field at all — not the claimed fallback with `overallScore = 75`
and six dimension entries. -/
theorem c1_counterexample :
    jsGet (normalizeV2 ("hello".data)) kOverallScore = some (Json.num 70 0) ∧
    jsGet (normalizeV2 ("hello".data)) kDimensions = none := ⟨rfl, rfl⟩

/-- C1 (amended): in the first handler variant (`src/server.js` first
occurrence, and `part_003`), whenever no fence pattern matches or parsing of
the captured candidate fails, the result is the deterministic fallback
record with `overallScore = 75` and exactly the six fixed dimension entries
in order, each scored 75 with issues `Review required` and its
dimension-specific recommendation; the second variant's fallback instead has
`overallScore = 70` and a barriers array (see the counterexample). -/
theorem c1_fallback_shape (s : List Char)
    (h : capV1 s = none ∨ ∃ c, capV1 s = some c ∧ jsonParse c = none) :
    normalizeV1 s = Json.obj [(kOverallScore, Json.num 75 0),
      (kSummary, Json.str (s.take 200 ++ ("...".data))),
      (kDimensions, Json.arr [
        Json.obj [(kName, Json.str ("Socioeconomic".data)), (kScore, Json.num 75 0),
          (kIssues, Json.arr [Json.str ("Review required".data)]),
          (kRecommendations, Json.arr [Json.str ("Consider student resources".data)])],
        Json.obj [(kName, Json.str ("Time & Scheduling".data)), (kScore, Json.num 75 0),
          (kIssues, Json.arr [Json.str ("Review required".data)]),
          (kRecommendations, Json.arr [Json.str ("Consider flexibility".data)])],
        Json.obj [(kName, Json.str ("Cultural & Linguistic".data)), (kScore, Json.num 75 0),
          (kIssues, Json.arr [Json.str ("Review required".data)]),
          (kRecommendations, Json.arr [Json.str ("Consider inclusivity".data)])],
        Json.obj [(kName, Json.str ("Accessibility".data)), (kScore, Json.num 75 0),
          (kIssues, Json.arr [Json.str ("Review required".data)]),
          (kRecommendations, Json.arr [Json.str ("Consider accommodations".data)])],
        Json.obj [(kName, Json.str ("Digital Divide".data)), (kScore, Json.num 75 0),
          (kIssues, Json.arr [Json.str ("Review required".data)]),
          (kRecommendations, Json.arr [Json.str ("Consider access".data)])],
        Json.obj [(kName, Json.str ("Learning Support".data)), (kScore, Json.num 75 0),
          (kIssues, Json.arr [Json.str ("Review required".data)]),
          (kRecommendations, Json.arr [Json.str ("Consider guidance".data)])]])] := by
  rcases h with h | ⟨c, h1, h2⟩
  · simp [normalizeV1, h, fallback75, fallbackDims, dimEntry]
  · simp [normalizeV1, h1, h2, fallback75, fallbackDims, dimEntry]

/-- C1 witness: the amended theorem applied to a concrete fence-less input. -/
theorem c1_fallback_shape_witness :
    normalizeV1 ("no structured reply".data) = Json.obj [(kOverallScore, Json.num 75 0),
      (kSummary, Json.str (("no structured reply".data).take 200 ++ ("...".data))),
      (kDimensions, Json.arr [
        Json.obj [(kName, Json.str ("Socioeconomic".data)), (kScore, Json.num 75 0),
          (kIssues, Json.arr [Json.str ("Review required".data)]),
          (kRecommendations, Json.arr [Json.str ("Consider student resources".data)])],
        Json.obj [(kName, Json.str ("Time & Scheduling".data)), (kScore, Json.num 75 0),
          (kIssues, Json.arr [Json.str ("Review required".data)]),
          (kRecommendations, Json.arr [Json.str ("Consider flexibility".data)])],
        Json.obj [(kName, Json.str ("Cultural & Linguistic".data)), (kScore, Json.num 75 0),
          (kIssues, Json.arr [Json.str ("Review required".data)]),
          (kRecommendations, Json.arr [Json.str ("Consider inclusivity".data)])],
        Json.obj [(kName, Json.str ("Accessibility".data)), (kScore, Json.num 75 0),
          (kIssues, Json.arr [Json.str ("Review required".data)]),
          (kRecommendations, Json.arr [Json.str ("Consider accommodations".data)])],
        Json.obj [(kName, Json.str ("Digital Divide".data)), (kScore, Json.num 75 0),
          (kIssues, Json.arr [Json.str ("Review required".data)]),
          (kRecommendations, Json.arr [Json.str ("Consider access".data)])],
        Json.obj [(kName, Json.str ("Learning Support".data)), (kScore, Json.num 75 0),
          (kIssues, Json.arr [Json.str ("Review required".data)]),
          (kRecommendations, Json.arr [Json.str ("Consider guidance".data)])]])] :=
  c1_fallback_shape ("no structured reply".data) (Or.inl rfl)

/-! ### Claim C2 -/

/-- C2 counterexample: in the client-side reimplementation cited by the
claim (`analyzeAssignment`, `part_005`), a parse failure ends in an error
result — the caller shows an error message and returns no record — rather
than in fallback-record construction. -/
theorem c2_counterexample :
    clientParse ("Sorry, I cannot comply.".data) = Except.error () := rfl

/-- C2 (amended): the two server-side handler variants terminate normally on
every input and always return a record: each either returns the successfully
parsed value or its own fallback record, never an error.  (The client-side
variant in `part_005` instead surfaces an error result on failure.) -/
theorem c2_server_total (s : List Char) :
    ((∃ a, tryBlockV2 s = Except.ok a ∧ normalizeV2 s = a) ∨ normalizeV2 s = fallback70 s) ∧
    ((∃ c a, capV1 s = some c ∧ jsonParse c = some a ∧ normalizeV1 s = a) ∨
      normalizeV1 s = fallback75 s) := by
  constructor
  · cases h : tryBlockV2 s with
    | ok a => exact Or.inl ⟨a, rfl, by simp [normalizeV2, h]⟩
    | error e => exact Or.inr (by simp [normalizeV2, h])
  · cases h : capV1 s with
    | none => exact Or.inr (by simp [normalizeV1, h])
    | some c =>
      cases h2 : jsonParse c with
      | none => exact Or.inr (by simp [normalizeV1, h, h2])
      | some a => exact Or.inl ⟨c, a, rfl, h2, by simp [normalizeV1, h, h2]⟩

/-! ### Claim C3 -/

/-- C3 counterexample: the first handler variant (`analyzeHandler` in
`part_003`, cited by the claim) performs no field validation: for a
json-tagged fence whose interior lacks `summary`, it returns the parsed
record with the required field missing instead of the fallback record. -/
theorem c3_counterexample :
    normalizeV1 ("```json\n\x7b\"overallScore\": 82\x7d\n```".data) =
      Json.obj [(kOverallScore, Json.num 82 0)] ∧
    jsGet (normalizeV1 ("```json\n\x7b\"overallScore\": 82\x7d\n```".data)) kSummary = none :=
  ⟨rfl, rfl⟩

/-- C3 (amended): every record returned by the second handler variant has a
truthy `overallScore` and a truthy `summary` (the check is truthiness, not
numeric-ness); in particular, when the candidate parses to valid JSON whose
`summary` key is absent, the second variant returns its fallback record
rather than the partially-valid parsed object.  The first variant performs
no such validation (see the counterexample). -/
theorem c3_validated_fields (s : List Char) :
    (jsTruthy (jsGet (normalizeV2 s) kOverallScore) = true ∧
     jsTruthy (jsGet (normalizeV2 s) kSummary) = true) ∧
    (∀ a, jsonParse (candidateV2 s) = some a → jsGet a kSummary = none →
      normalizeV2 s = fallback70 s) := by
  constructor
  · cases h : tryBlockV2 s with
    | ok a =>
      obtain ⟨-, h1, h2⟩ := tryBlockV2_ok h
      rw [normalizeV2_ok h]
      exact ⟨h1, h2⟩
    | error e =>
      cases e
      have : normalizeV2 s = fallback70 s := by simp [normalizeV2, h]
      rw [this]
      exact ⟨rfl, rfl⟩
  · intro a hp hnone
    have hf : jsTruthy (jsGet a kSummary) = false := by rw [hnone]; rfl
    simp [normalizeV2, tryBlockV2, hp, hf]

/-- C3 witness: the amended theorem's validation clause applied to concrete
valid JSON lacking the `summary` key. -/
theorem c3_validated_fields_witness :
    normalizeV2 ("\x7b\"overallScore\": 9\x7d".data) =
      fallback70 ("\x7b\"overallScore\": 9\x7d".data) :=
  (c3_validated_fields ("\x7b\"overallScore\": 9\x7d".data)).2
    (Json.obj [(kOverallScore, Json.num 9 0)]) rfl rfl

/-! ### Claim C4 -/

/-- C4 counterexample: when the json-tagged block's captured interior is
empty, `jsonMatch[1] || jsonMatch[0]` discards the (falsy) empty capture and
the candidate becomes the whole match including the fence markers, not the
block's interior. -/
theorem c4_counterexample :
    jsonFenceCap ("```json``` ```ab```".data) = some ([], ("```json```".data)) ∧
    candidateV2 ("```json``` ```ab```".data) = ("```json```".data) := ⟨rfl, rfl⟩

/-- C4 (amended): the second variant selects the candidate by the four
strategies in the fixed order json-tagged fence, any fence, brace span,
trimmed input, stopping at the first match — in particular a json-tagged
block's interior wins over an untagged block whenever that interior is
non-empty; but an empty capture is falsy, so then the whole match (fence
markers included) becomes the candidate instead (see the counterexample). -/
theorem c4_cascade_order (s : List Char) :
    (∀ cap g0, jsonFenceCap s = some (cap, g0) → cap ≠ [] → candidateV2 s = cap) ∧
    (∀ cap g0, jsonFenceCap s = none → anyFenceCap s = some (cap, g0) → cap ≠ [] →
      candidateV2 s = cap) ∧
    (∀ g0, jsonFenceCap s = none → anyFenceCap s = none → braceCap s = some g0 →
      candidateV2 s = g0) ∧
    (jsonFenceCap s = none → anyFenceCap s = none → braceCap s = none →
      candidateV2 s = jsTrim s) := by
  refine ⟨fun cap g0 h1 hne => ?_, fun cap g0 h0 h1 hne => ?_,
    fun g0 h0 h1 h2 => ?_, fun h0 h1 h2 => ?_⟩
  · simp [candidateV2, h1, if_neg hne]
  · simp [candidateV2, h0, h1, if_neg hne]
  · simp [candidateV2, h0, h1, h2]
  · simp [candidateV2, h0, h1, h2]

/-- C4 witness: the amended theorem applied to a concrete input holding both
a json-tagged and an untagged fence (the tagged interior wins), and to a
concrete input matched by no strategy (the trimmed input is the candidate). -/
theorem c4_cascade_order_witness :
    candidateV2 ("x ```json\nA``` y ```B``` z".data) = ("A".data) ∧
    candidateV2 ("  plain words  ".data) = jsTrim ("  plain words  ".data) :=
  ⟨(c4_cascade_order ("x ```json\nA``` y ```B``` z".data)).1 ("A".data)
      ("```json\nA```".data) rfl (by simp),
   (c4_cascade_order ("  plain words  ".data)).2.2.2 rfl rfl rfl⟩

/-! ### Claim C5 -/

/-- C5 counterexample: a json-tagged fence whose valid-JSON interior has both
`overallScore` and `summary` present, with `overallScore = 0`; the second
variant's truthiness check rejects it and returns the fallback (whose
`overallScore` is 70), not the parsed object. -/
theorem c5_counterexample :
    jsGet (normalizeV2 ("```json\n\x7b\"overallScore\": 0, \"summary\": \"x\"\x7d\n```".data))
      kOverallScore = some (Json.num 70 0) := rfl

/-- C5 (amended): whenever the json-tagged fence pattern matches and its
capture parses as JSON with truthy `overallScore` and truthy `summary`
(mere presence is not enough: a zero score or empty summary is rejected by
the second variant), both server variants return exactly the parsed object,
ignoring all surrounding prose; the first variant does so with no field
requirement at all. -/
theorem c5_tagged_block_success (s cap g0 : List Char) (a : Json)
    (h1 : jsonFenceCap s = some (cap, g0))
    (h2 : jsonParse cap = some a)
    (h3 : jsTruthy (jsGet a kOverallScore) = true)
    (h4 : jsTruthy (jsGet a kSummary) = true) :
    normalizeV2 s = a ∧ normalizeV1 s = a := by
  have hne : cap ≠ [] := jsonParse_ne_nil h2
  constructor
  · simp [normalizeV2, tryBlockV2, candidateV2, h1, if_neg hne, h2, h3, h4]
  · simp [normalizeV1, capV1, h1, h2]

/-- C5 witness: the spec's own section-8 scenario (with prose around the
fenced block), via the amended theorem. -/
theorem c5_tagged_block_success_witness :
    normalizeV2 ("Sure! ```json\n\x7b\"overallScore\": 82, \"summary\": \"Good design\"\x7d\n``` Done.".data)
      = Json.obj [(kOverallScore, Json.num 82 0), (kSummary, Json.str ("Good design".data))] ∧
    normalizeV1 ("Sure! ```json\n\x7b\"overallScore\": 82, \"summary\": \"Good design\"\x7d\n``` Done.".data)
      = Json.obj [(kOverallScore, Json.num 82 0), (kSummary, Json.str ("Good design".data))] :=
  c5_tagged_block_success
    ("Sure! ```json\n\x7b\"overallScore\": 82, \"summary\": \"Good design\"\x7d\n``` Done.".data)
    ("\x7b\"overallScore\": 82, \"summary\": \"Good design\"\x7d".data)
    ("```json\n\x7b\"overallScore\": 82, \"summary\": \"Good design\"\x7d\n```".data)
    (Json.obj [(kOverallScore, Json.num 82 0), (kSummary, Json.str ("Good design".data))])
    rfl rfl rfl rfl

/-! ### Claim C6 -/

/-- C6 counterexample: on the empty input the second handler variant returns
its barriers-shaped fallback with `overallScore = 70` and no `dimensions`
field — not the claimed fixed fallback with `overallScore = 75` and six
dimension entries. -/
theorem c6_counterexample :
    jsGet (normalizeV2 []) kOverallScore = some (Json.num 70 0) ∧
    jsGet (normalizeV2 []) kDimensions = none := ⟨rfl, rfl⟩

/-- C6 (amended): for the empty raw text, the first handler variant returns
the fixed fallback record with `overallScore = 75`, summary `"..."` and the
six fixed dimension entries, while the second variant returns its own
70-score barriers-shaped fallback. -/
theorem c6_empty_input :
    normalizeV1 [] = Json.obj [(kOverallScore, Json.num 75 0),
      (kSummary, Json.str ("...".data)), (kDimensions, fallbackDims)] ∧
    normalizeV2 [] = fallback70 [] ∧
    jsGet (fallback70 []) kOverallScore = some (Json.num 70 0) :=
  ⟨rfl, rfl, rfl⟩

/-! ### Claim C7 -/

/-- C7 counterexample: the first handler variant — `analyzeHandler` in
`part_003`, cited by the claim — has no bare-object strategy: for plain
prose containing a balanced, valid-JSON `overallScore` span it returns the
75-score fallback (score 75, dimensions present), not the parsed object
(whose score is 80). -/
theorem c7_counterexample :
    jsGet (normalizeV1 ("See \x7b\"overallScore\": 80, \"summary\": \"ok\"\x7d done".data))
      kOverallScore = some (Json.num 75 0) ∧
    jsGet (normalizeV1 ("See \x7b\"overallScore\": 80, \"summary\": \"ok\"\x7d done".data))
      kDimensions = some fallbackDims := ⟨rfl, rfl⟩

/-- C7 (amended): in the second variant only, for fence-less prose the brace
strategy extracts the span from the first `\x7b` through the last `\x7d`
(given the quoted key inside); when that extracted span is valid JSON with
truthy required fields the parsed object is returned.  The first variant,
having no bare-object strategy, returns its fallback on every fence-less
input. -/
theorem c7_brace_extraction (s g0 : List Char) (a : Json)
    (h0 : jsonFenceCap s = none) (h1 : anyFenceCap s = none)
    (h2 : braceCap s = some g0) (h3 : jsonParse g0 = some a)
    (h4 : jsTruthy (jsGet a kOverallScore) = true)
    (h5 : jsTruthy (jsGet a kSummary) = true) :
    normalizeV2 s = a ∧ normalizeV1 s = fallback75 s := by
  constructor
  · simp [normalizeV2, tryBlockV2, candidateV2, h0, h1, h2, h3, h4, h5]
  · simp [normalizeV1, capV1, h0, h1]

/-- C7 witness: the amended theorem at concrete prose with an embedded JSON
object. -/
theorem c7_brace_extraction_witness :
    normalizeV2 ("See \x7b\"overallScore\": 80, \"summary\": \"ok\"\x7d done".data) =
      Json.obj [(kOverallScore, Json.num 80 0), (kSummary, Json.str ("ok".data))] ∧
    normalizeV1 ("See \x7b\"overallScore\": 80, \"summary\": \"ok\"\x7d done".data) =
      fallback75 ("See \x7b\"overallScore\": 80, \"summary\": \"ok\"\x7d done".data) :=
  c7_brace_extraction ("See \x7b\"overallScore\": 80, \"summary\": \"ok\"\x7d done".data)
    ("\x7b\"overallScore\": 80, \"summary\": \"ok\"\x7d".data)
    (Json.obj [(kOverallScore, Json.num 80 0), (kSummary, Json.str ("ok".data))])
    rfl rfl rfl rfl rfl rfl

/-! ### Claim C8 -/

/-- C8 counterexample: no schema coercion happens on the success path — an
unrecognized field in the parsed JSON is exposed verbatim in the returned
record. -/
theorem c8_counterexample :
    jsGet (normalizeV2 ("\x7b\"overallScore\": 5, \"summary\": \"s\", \"extraField\": 1\x7d".data))
      ("extraField".data) = some (Json.num 1 0) := rfl

/-- C8 (amended): on the success path the second variant returns the parsed
object verbatim: every property reads back exactly as parsed, so
unrecognized fields are preserved rather than dropped, and absent optional
fields stay absent rather than defaulting to empty sequences. -/
theorem c8_verbatim_success (s : List Char) (a : Json)
    (h : tryBlockV2 s = Except.ok a) :
    normalizeV2 s = a ∧ ∀ k, jsGet (normalizeV2 s) k = jsGet a k := by
  have h2 : normalizeV2 s = a := normalizeV2_ok h
  exact ⟨h2, fun k => by rw [h2]⟩

/-- C8 witness: the amended theorem at a concrete success-path input, also
showing that the absent optional `barriers` field stays absent. -/
theorem c8_verbatim_success_witness :
    normalizeV2 ("\x7b\"overallScore\": 64, \"summary\": \"terse\"\x7d".data) =
      Json.obj [(kOverallScore, Json.num 64 0), (kSummary, Json.str ("terse".data))] ∧
    jsGet (normalizeV2 ("\x7b\"overallScore\": 64, \"summary\": \"terse\"\x7d".data)) kBarriers
      = none :=
  ⟨(c8_verbatim_success ("\x7b\"overallScore\": 64, \"summary\": \"terse\"\x7d".data)
      (Json.obj [(kOverallScore, Json.num 64 0), (kSummary, Json.str ("terse".data))]) rfl).1,
   ((c8_verbatim_success ("\x7b\"overallScore\": 64, \"summary\": \"terse\"\x7d".data)
      (Json.obj [(kOverallScore, Json.num 64 0), (kSummary, Json.str ("terse".data))]) rfl).2
      kBarriers).trans rfl⟩

/-! ### Claim C9 -/

/-- C9: when the extracted candidate parses to JSON whose `overallScore` is
the number 0 (any exponent representation) and whose `summary` is truthy,
the second variant's `!analysisData.overallScore` truthiness test fires —
0 is falsy — so the fallback record is returned instead of the parsed
object. -/
theorem c9_zero_score_falls_back (s : List Char) (a : Json) (e : Int)
    (h1 : jsonParse (candidateV2 s) = some a)
    (h2 : jsGet a kOverallScore = some (Json.num 0 e))
    (_h3 : jsTruthy (jsGet a kSummary) = true) :
    normalizeV2 s = fallback70 s ∧ normalizeV2 s ≠ a := by
  have hf : jsTruthy (jsGet a kOverallScore) = false := by rw [h2]; simp [jsTruthy]
  have hmain : normalizeV2 s = fallback70 s := by
    simp [normalizeV2, tryBlockV2, h1, hf]
  refine ⟨hmain, fun he => ?_⟩
  rw [hmain] at he
  rw [← he, fallback70_overall] at h2
  simp at h2

/-- C9 witness: bare valid JSON with `overallScore = 0` and a non-empty
summary yields the fallback, not the parsed object. -/
theorem c9_zero_score_falls_back_witness :
    normalizeV2 ("\x7b\"overallScore\": 0, \"summary\": \"fine\"\x7d".data) =
      fallback70 ("\x7b\"overallScore\": 0, \"summary\": \"fine\"\x7d".data) ∧
    normalizeV2 ("\x7b\"overallScore\": 0, \"summary\": \"fine\"\x7d".data) ≠
      Json.obj [(kOverallScore, Json.num 0 0), (kSummary, Json.str ("fine".data))] :=
  c9_zero_score_falls_back ("\x7b\"overallScore\": 0, \"summary\": \"fine\"\x7d".data)
    (Json.obj [(kOverallScore, Json.num 0 0), (kSummary, Json.str ("fine".data))])
    0 rfl rfl rfl

/-! ### Claim C10 -/

/-- C10: when no json-tagged fence matches but the generic fence pattern
captures a block tagged `javascript`, the language tag is part of the
captured candidate, so `JSON.parse` fails — even when the block's interior
after the tag line is valid JSON with truthy required fields — and each
server variant returns its fallback record. -/
theorem c10_tagged_block_tag_included (s cap g0 tail : List Char) (a : Json)
    (h0 : jsonFenceCap s = none)
    (h1 : anyFenceCap s = some (cap, g0))
    (h2 : cap = ("javascript\n".data) ++ tail)
    (_h3 : jsonParse tail = some a)
    (_h4 : jsTruthy (jsGet a kOverallScore) = true)
    (_h5 : jsTruthy (jsGet a kSummary) = true) :
    normalizeV2 s = fallback70 s ∧ normalizeV1 s = fallback75 s := by
  have hparse : jsonParse cap = none := by
    rw [h2]
    exact jsonParse_j_head (("avascript\n".data) ++ tail)
  have hne : cap ≠ [] := by rw [h2]; exact List.cons_ne_nil _ _
  constructor
  · simp [normalizeV2, tryBlockV2, candidateV2, h0, h1, if_neg hne, hparse]
  · simp [normalizeV1, capV1, h0, h1, hparse]

/-- C10 witness: a javascript-tagged block whose interior is valid JSON with
both required fields truthy still ends in the fallback records. -/
theorem c10_tagged_block_tag_included_witness :
    normalizeV2 ("```javascript\n\x7b\"overallScore\": 82, \"summary\": \"ok\"\x7d\n```".data) =
      fallback70 ("```javascript\n\x7b\"overallScore\": 82, \"summary\": \"ok\"\x7d\n```".data) ∧
    normalizeV1 ("```javascript\n\x7b\"overallScore\": 82, \"summary\": \"ok\"\x7d\n```".data) =
      fallback75 ("```javascript\n\x7b\"overallScore\": 82, \"summary\": \"ok\"\x7d\n```".data) :=
  c10_tagged_block_tag_included
    ("```javascript\n\x7b\"overallScore\": 82, \"summary\": \"ok\"\x7d\n```".data)
    ("javascript\n\x7b\"overallScore\": 82, \"summary\": \"ok\"\x7d".data)
    ("```javascript\n\x7b\"overallScore\": 82, \"summary\": \"ok\"\x7d\n```".data)
    ("\x7b\"overallScore\": 82, \"summary\": \"ok\"\x7d".data)
    (Json.obj [(kOverallScore, Json.num 82 0), (kSummary, Json.str ("ok".data))])
    rfl rfl rfl rfl rfl rfl
